import Mathlib

/-!
Verification of the Reinhardt_Monitor polling engine
(`src/core/service/polling_service.py` and the ORM model in `src/core/model`).

Numeric values (Python floats) are modelled as exact rationals `ℚ`;
machine floating point is idealised away.  Stateful / asynchronous parts
are modelled by explicit state records and by per-attempt behaviours
(`ConnBehavior`) describing what the network did during one poll attempt.
Log emission (the engine's notification channel: log records are forwarded
to the GUI through a logging handler) is modelled as explicit event lists.
-/

namespace ReinhardtMonitor

/-! ## Data model (src/core/model) -/

/-- `core/model/parameter.py` — a parameter definition of a device type. -/
structure Parameter where
  id : Nat
  name : String
  command : String
  metric : Option String
  device_type_id : Nat
deriving DecidableEq

/-- `core/model/threshold.py` — a threshold rule for a (device, parameter) pair. -/
structure Threshold where
  id : Nat
  low_value : Option ℚ
  high_value : Option ℚ
  is_enable : Bool
  parameter_id : Nat
  device_id : Nat
deriving DecidableEq

/-- `core/model/device.py` — a device with its threshold rules preloaded. -/
structure Device where
  id : Nat
  name : String
  ip_address : String
  port : Nat
  is_enable : Bool
  device_type_id : Nat
  thresholds : List Threshold
deriving DecidableEq

/-! ## Frame decoding (`extract_parameter_value`)

The Python code matches the regex `re.escape(command) + r"\s*([+-]?\d+\.\d+)"`
with `re.search` (leftmost occurrence) and converts group 1 with `float`.
The regex engine's backtracking is equivalent to maximal munch here, since
`\s*` is followed by a sign/digit, `\d+` by `.`, and the final `\d+` ends
the pattern. -/

/-- Python `\s` (Unicode whitespace) restricted to the Latin-1 range that a
`latin1`-decoded frame can contain. -/
def isPySpace (c : Char) : Bool :=
  c == ' ' || c == '\t' || c == '\n' || c == '\r' ||
  c == Char.ofNat 11 || c == Char.ofNat 12 ||
  c == Char.ofNat 28 || c == Char.ofNat 29 || c == Char.ofNat 30 ||
  c == Char.ofNat 31 || c == Char.ofNat 133 || c == Char.ofNat 160

/-- Value of a digit string, most significant first. -/
def digitsVal (ds : List Char) : Nat :=
  ds.foldl (fun n c => 10 * n + (c.toNat - 48)) 0

/-- Parse `\d+\.\d+` at the head of `cs` (maximal munch), returning the
rational value of the decimal literal. -/
def parseUnsigned (cs : List Char) : Option ℚ :=
  let ds1 := cs.takeWhile Char.isDigit
  let cs2 := cs.dropWhile Char.isDigit
  if ds1 = [] then none
  else
    match cs2 with
    | [] => none
    | c :: cs3 =>
      if c = '.' then
        let ds2 := cs3.takeWhile Char.isDigit
        if ds2 = [] then none
        else some ((digitsVal ds1 : ℚ) + (digitsVal ds2 : ℚ) / (10 : ℚ) ^ ds2.length)
      else none

/-- Parse `[+-]?\d+\.\d+` at the head of `cs`; `float` of the whole match,
so a leading `-` negates the value. -/
def parseSignedDecimal (cs : List Char) : Option ℚ :=
  match cs with
  | [] => none
  | c :: t =>
    if c = '+' then parseUnsigned t
    else if c = '-' then (parseUnsigned t).map (fun q => -q)
    else parseUnsigned (c :: t)

/-- Strip the literal command token (`re.escape(command)`) from the head
of `cs`, returning the remainder on success. -/
def dropToken : List Char → List Char → Option (List Char)
  | [], cs => some cs
  | _ :: _, [] => none
  | t :: ts, c :: cs => if t = c then dropToken ts cs else none

/-- Try to match `command\s*([+-]?\d+\.\d+)` anchored at the head of `cs`. -/
def matchAt (cmd cs : List Char) : Option ℚ :=
  match dropToken cmd cs with
  | some rest => parseSignedDecimal (rest.dropWhile isPySpace)
  | none => none

/-- `re.search`: try `matchAt` at each position, leftmost first. -/
def reSearch (cmd : List Char) : List Char → Option ℚ
  | [] => matchAt cmd []
  | c :: cs =>
    match matchAt cmd (c :: cs) with
    | some v => some v
    | none => reSearch cmd cs

/-- `PollingService.extract_parameter_value` (polling_service.py:59-77):
regex search for the command token followed by a signed decimal literal,
then the special divide-by-ten handling for the `DR` command. -/
def extract_parameter_value (frame : String) (p : Parameter) : Option ℚ :=
  match reSearch p.command.toList frame.toList with
  | none => none
  | some v => if p.command = "DR" then some (v / 10) else some v

/-- Python `str.strip()` on the Latin-1 frame: drop whitespace at both ends. -/
def pyStrip (cs : List Char) : List Char :=
  ((cs.dropWhile isPySpace).reverse.dropWhile isPySpace).reverse

/-! ## Threshold evaluation (`check_thresholds`, polling_service.py:149-165) -/

/-- A warning log record emitted by `check_thresholds` (below / above a bound). -/
inductive Warning where
  | low (deviceName paramName : String) (value bound : ℚ)
  | high (deviceName paramName : String) (value bound : ℚ)
deriving DecidableEq

/-- The body of the `for threshold in device.thresholds` loop, for one
matching threshold: the low check then the high check, each skipped when
its bound is `None`. -/
def checkOneThreshold (deviceName paramName : String) (value : ℚ) (t : Threshold) : List Warning :=
  (match t.low_value with
   | some l => if value < l then [Warning.low deviceName paramName value l] else []
   | none => []) ++
  (match t.high_value with
   | some h => if value > h then [Warning.high deviceName paramName value h] else []
   | none => [])

/-- The full loop of `check_thresholds` over the device's threshold list:
only thresholds with `threshold.parameter_id == parameter.id and threshold.is_enable`
are evaluated. -/
def checkThresholdList (deviceName paramName : String) (pid : Nat) (value : ℚ) :
    List Threshold → List Warning
  | [] => []
  | t :: ts =>
    (if t.parameter_id = pid ∧ t.is_enable = true
     then checkOneThreshold deviceName paramName value t else []) ++
    checkThresholdList deviceName paramName pid value ts

/-- `PollingService.check_thresholds` (polling_service.py:149-165). -/
def check_thresholds (device : Device) (p : Parameter) (value : ℚ) : List Warning :=
  checkThresholdList device.name p.name p.id value device.thresholds

/-! ## One poll attempt (`poll_device`, polling_service.py:98-147) -/

/-- One entry of `parameters_data` (the dict built at polling_service.py:124-130;
the wall-clock timestamp is not modelled). -/
structure ParamData where
  name : String
  command : String
  value : ℚ
  metric : String
deriving DecidableEq

/-- Round-half-even of a rational to an integer, the rounding used by
Python's fixed-point formatting. -/
def roundHalfEven (x : ℚ) : ℤ :=
  if x - ⌊x⌋ = 1 / 2 then (if Even ⌊x⌋ then ⌊x⌋ else ⌊x⌋ + 1) else round x

/-- `float(f"{value:.1f}")`: the value rounded to one decimal place. -/
def formatOneDecimal (q : ℚ) : ℚ :=
  (roundHalfEven (q * 10) : ℚ) / 10

/-- `formatted_value = float(f"{value:.1f}") if param.command == 'DR' else value`
(polling_service.py:119). -/
def formattedValue (p : Parameter) (v : ℚ) : ℚ :=
  if p.command = "DR" then formatOneDecimal v else v

/-- Output trace of the `for param in parameters` loop of `poll_device`:
the `parameters_data` list, the arguments of each `check_thresholds` call,
and all warnings those calls emitted. -/
structure LoopOutput where
  parameters_data : List ParamData
  threshold_calls : List (Nat × ℚ)
  warnings : List Warning
deriving DecidableEq

/-- The parameter loop of `poll_device` (polling_service.py:116-133): for each
parameter, extract; on success record the (formatted) reading and call
`check_thresholds` with the unformatted value; on `None` do nothing. -/
def processParams (device : Device) (frame : String) : List Parameter → LoopOutput
  | [] => ⟨[], [], []⟩
  | p :: ps =>
    let rest := processParams device frame ps
    match extract_parameter_value frame p with
    | none => rest
    | some v =>
      ⟨⟨p.name, p.command, formattedValue p v, p.metric.getD ""⟩ :: rest.parameters_data,
       (p.id, v) :: rest.threshold_calls,
       check_thresholds device p v ++ rest.warnings⟩

/-- What the network does during one poll attempt of one device:
connection refused, read timeout, or a frame delivered (raw decoded text,
before `strip()`). -/
inductive ConnBehavior where
  | connectFail
  | readTimeout
  | frame (raw : String)
deriving DecidableEq

/-- Error log records of `poll_device`'s exception handlers; these log
records are the engine's failure notifications (they are forwarded to
observers by a logging handler). -/
inductive LogEvent where
  | connectError (deviceName : String)
  | readTimeoutWarn (deviceName : String)
deriving DecidableEq

/-- Exceptions at the suspension points of `poll_device`. -/
inductive PollError where
  | connectionError
  | timeoutError
deriving DecidableEq

/-- `asyncio.open_connection` (polling_service.py:102): raises on refusal. -/
def open_connection (b : ConnBehavior) : Except PollError Unit :=
  match b with
  | ConnBehavior.connectFail => Except.error PollError.connectionError
  | _ => Except.ok ()

/-- `asyncio.wait_for(reader.readuntil(b'\r\n'), timeout=5.0)`
(polling_service.py:107): raises `TimeoutError` on timeout. -/
def read_frame (b : ConnBehavior) : Except PollError String :=
  match b with
  | ConnBehavior.connectFail => Except.error PollError.connectionError
  | ConnBehavior.readTimeout => Except.error PollError.timeoutError
  | ConnBehavior.frame raw => Except.ok raw

/-- The JSON document written by `save_device_data` (polling_service.py:79-96;
the `last_update` wall-clock field is not modelled). -/
structure SavedDeviceData where
  device_name : String
  ip_address : String
  port : Nat
  parameters : List ParamData
deriving DecidableEq

/-- Result of one `poll_device` attempt: whether a connection was opened,
the error log records emitted, the saved JSON document (if any), and the
threshold-call / warning trace. -/
structure PollResult where
  connectionOpened : Bool
  errorLogs : List LogEvent
  saved : Option SavedDeviceData
  threshold_calls : List (Nat × ℚ)
  warnings : List Warning
deriving DecidableEq

/-- `PollingService.get_device_parameters` (polling_service.py:51-57): an
unset (falsy) `device_type_id` yields `[]`, otherwise the parameter
repository is queried by device type. -/
def get_device_parameters (paramRepo : Nat → List Parameter) (device : Device) : List Parameter :=
  if device.device_type_id = 0 then [] else paramRepo device.device_type_id

/-- `PollingService.poll_device` (polling_service.py:98-147): connect, read
one CRLF-terminated frame with timeout, strip it, process every parameter,
save the device data.  Both exception handlers produce a single error log
record and no saved data; no exception escapes (the function is total). -/
def poll_device (paramRepo : Nat → List Parameter) (device : Device) (b : ConnBehavior) : PollResult :=
  match open_connection b with
  | Except.error _ => ⟨false, [LogEvent.connectError device.name], none, [], []⟩
  | Except.ok _ =>
    match read_frame b with
    | Except.error _ => ⟨true, [LogEvent.readTimeoutWarn device.name], none, [], []⟩
    | Except.ok raw =>
      let frame_str : String := String.mk (pyStrip raw.toList)
      let out := processParams device frame_str (get_device_parameters paramRepo device)
      ⟨true, [], some ⟨device.name, device.ip_address, device.port, out.parameters_data⟩,
       out.threshold_calls, out.warnings⟩

/-! ## One round (`poll_all_devices`) and the device repository -/

/-- `DeviceRepository.get_devices_by_is_enable_true`
(device_repository.py:18-22): filter on `is_enable == True`. -/
def get_devices_by_is_enable_true (devices : List Device) : List Device :=
  devices.filter (fun d => d.is_enable)

/-- `PollingService.poll_all_devices` (polling_service.py:167-179): one task
per enabled device; `gather(..., return_exceptions=True)` never aborts the
round.  `behaviorOf` gives each device's network behaviour this round. -/
def poll_all_devices (allDevices : List Device) (paramRepo : Nat → List Parameter)
    (behaviorOf : Device → ConnBehavior) : List (Device × PollResult) :=
  (get_devices_by_is_enable_true allDevices).map
    (fun d => (d, poll_device paramRepo d (behaviorOf d)))

/-- Two consecutive rounds for one device.  `poll_device` keeps no state
between rounds, so the second round is independent of the first. -/
def runTwoRounds (paramRepo : Nat → List Parameter) (device : Device)
    (b1 b2 : ConnBehavior) : PollResult × PollResult :=
  (poll_device paramRepo device b1, poll_device paramRepo device b2)

/-! ## Scheduler control state (`polling_interval` setter and `run`) -/

/-- The control-relevant attributes of `PollingService`: the interval, whether
`self._polling_event` exists (it is created only inside `run`,
polling_service.py:253), whether that event is set, and `_is_running`. -/
structure SchedulerState where
  polling_interval : ℤ
  eventCreated : Bool
  eventSet : Bool
  is_running : Bool
deriving DecidableEq

/-- The Python exceptions the interval setter can raise. -/
inductive PyError where
  | valueError
  | attributeError
deriving DecidableEq

/-- `PollingService.__init__` (polling_service.py:19-32): stores the interval;
deliberately does not create the polling event. -/
def initService (interval : ℤ) : SchedulerState :=
  ⟨interval, false, false, false⟩

/-- The `polling_interval` property setter (polling_service.py:39-45):
reject non-positive values with `ValueError`; otherwise assign the new
interval, then `self._polling_event.set()` — which raises `AttributeError`
(after the assignment) when the event does not exist yet. -/
def set_polling_interval (s : SchedulerState) (v : ℤ) : SchedulerState × Option PyError :=
  if v ≤ 0 then (s, some PyError.valueError)
  else
    let s1 : SchedulerState := { s with polling_interval := v }
    if s1.eventCreated then ({ s1 with eventSet := true }, none)
    else (s1, some PyError.attributeError)

/-- The initialisation prefix of `run` (polling_service.py:252-254): set
`_is_running`, create the polling event and clear it. -/
def run_init (s : SchedulerState) : SchedulerState :=
  { s with is_running := true, eventCreated := true, eventSet := false }

/-- `sleep_time = max(0, self.polling_interval - elapsed)`
(polling_service.py:262), with the interval read afresh each iteration. -/
def compute_sleep_time (interval : ℤ) (elapsed : ℚ) : ℚ :=
  max 0 ((interval : ℚ) - elapsed)

/-! ## Declarative extraction spec

`SpacedLiteral cmd cs` renders the spec's wording: `cs` starts with the
command token, followed by optional whitespace and a signed decimal literal
matching `[+-]?digits.digits`.  It is defined from the spec's words, to be
compared with the engine's `reSearch`/`matchAt` implementation. -/

/-- The spec's description of a successful anchored match: command token,
then optional whitespace, then `[+-]?digits.digits`. -/
def SpacedLiteral (cmd cs : List Char) : Prop :=
  ∃ ws sgn ds1 ds2 rest : List Char,
    cs = cmd ++ ws ++ sgn ++ ds1 ++ '.' :: (ds2 ++ rest) ∧
    (∀ c ∈ ws, isPySpace c = true) ∧
    (sgn = [] ∨ sgn = ['+'] ∨ sgn = ['-']) ∧
    ds1 ≠ [] ∧ (∀ c ∈ ds1, c.isDigit = true) ∧
    ds2 ≠ [] ∧ (∀ c ∈ ds2, c.isDigit = true)

/-! ## Warning classifiers used to count emitted warnings -/

/-- Whether a warning is a below-minimum warning. -/
def isLowWarning : Warning → Bool
  | Warning.low _ _ _ _ => true
  | Warning.high _ _ _ _ => false

/-- Whether a warning is an above-maximum warning. -/
def isHighWarning : Warning → Bool
  | Warning.low _ _ _ _ => false
  | Warning.high _ _ _ _ => true

/-- Whether the low bound of one threshold fires for `v`. -/
def lowFires (v : ℚ) (t : Threshold) : Bool :=
  match t.low_value with
  | some l => decide (v < l)
  | none => false

/-- Whether the high bound of one threshold fires for `v`. -/
def highFires (v : ℚ) (t : Threshold) : Bool :=
  match t.high_value with
  | some h => decide (v > h)
  | none => false

/-- Whether a threshold is an enabled rule of parameter `pid` whose low
bound fires for `v`. -/
def lowTriggered (pid : Nat) (v : ℚ) (t : Threshold) : Bool :=
  decide (t.parameter_id = pid) && t.is_enable && lowFires v t

/-- Whether a threshold is an enabled rule of parameter `pid` whose high
bound fires for `v`. -/
def highTriggered (pid : Nat) (v : ℚ) (t : Threshold) : Bool :=
  decide (t.parameter_id = pid) && t.is_enable && highFires v t

/-! ## Concrete fixtures (spec §8's scenario data) -/

/-- Threshold rule low=10, high=20, enabled, on parameter 1 of device 1. -/
def exampleThreshold : Threshold := ⟨1, some 10, some 20, true, 1, 1⟩

/-- A `TE` (no transform) parameter of device type 1. -/
def exampleParameter : Parameter := ⟨1, "TE", "TE", some "C", 1⟩

/-- An enabled device with the example threshold rule. -/
def exampleDevice : Device := ⟨1, "Device-A", "10.0.0.5", 9000, true, 1, [exampleThreshold]⟩

/-- A parameter repository serving the `TE` parameter for every device type. -/
def exampleRepo : Nat → List Parameter := fun _ => [exampleParameter]

/-- A `DR` (divide-by-ten transform) parameter of device type 1. -/
def drParameter : Parameter := ⟨2, "Rain", "DR", some "mm", 1⟩

/-- Threshold rule low=13, no high bound, enabled, on the DR parameter. -/
def drThreshold : Threshold := ⟨2, some 13, none, true, 2, 2⟩

/-- An enabled device with the DR threshold rule. -/
def drDevice : Device := ⟨2, "Device-R", "10.0.0.6", 9001, true, 1, [drThreshold]⟩

/-- A parameter repository serving the `DR` parameter for every device type. -/
def drRepo : Nat → List Parameter := fun _ => [drParameter]

/-- A disabled device (spec §8's device C). -/
def disabledDevice : Device := ⟨3, "Device-C", "10.0.0.7", 9002, false, 1, []⟩

/-! ## Helper lemmas: the frame decoder -/

theorem dropToken_eq_some_iff (t cs r : List Char) :
    dropToken t cs = some r ↔ cs = t ++ r := by
  induction t generalizing cs with
  | nil => simp [dropToken, eq_comm]
  | cons a as ih =>
    cases cs with
    | nil => simp [dropToken]
    | cons c cs' =>
      by_cases h : a = c
      · subst h; simp [dropToken, ih]
      · simp [dropToken, h, Ne.symm h]

theorem takeWhile_append_all {α} (p : α → Bool) (a b : List α)
    (ha : ∀ c ∈ a, p c = true) :
    (a ++ b).takeWhile p = a ++ b.takeWhile p := by
  induction a with
  | nil => simp
  | cons x xs ih =>
    simp only [List.cons_append, List.takeWhile_cons, ha x (by simp)]
    simp [ih (fun c hc => ha c (by simp [hc]))]

theorem dropWhile_append_all {α} (p : α → Bool) (a b : List α)
    (ha : ∀ c ∈ a, p c = true) :
    (a ++ b).dropWhile p = b.dropWhile p := by
  induction a with
  | nil => simp
  | cons x xs ih =>
    simp only [List.cons_append, List.dropWhile_cons, ha x (by simp)]
    simp [ih (fun c hc => ha c (by simp [hc]))]

theorem parseUnsigned_isSome_iff (cs : List Char) :
    (parseUnsigned cs).isSome = true ↔
      ∃ ds1 ds2 rest : List Char,
        cs = ds1 ++ '.' :: (ds2 ++ rest) ∧
        ds1 ≠ [] ∧ (∀ c ∈ ds1, c.isDigit = true) ∧
        ds2 ≠ [] ∧ (∀ c ∈ ds2, c.isDigit = true) := by
  constructor
  · intro h
    by_cases h1 : cs.takeWhile Char.isDigit = []
    · simp [parseUnsigned, h1] at h
    · cases h2 : cs.dropWhile Char.isDigit with
      | nil => simp [parseUnsigned, h1, h2] at h
      | cons c cs3 =>
        by_cases hc : c = '.'
        · subst hc
          by_cases h3 : cs3.takeWhile Char.isDigit = []
          · simp [parseUnsigned, h1, h2, h3] at h
          · refine ⟨cs.takeWhile Char.isDigit, cs3.takeWhile Char.isDigit,
              cs3.dropWhile Char.isDigit, ?_, h1, ?_, h3, ?_⟩
            · have e1 := List.takeWhile_append_dropWhile (p := Char.isDigit) (l := cs)
              have e2 := List.takeWhile_append_dropWhile (p := Char.isDigit) (l := cs3)
              rw [h2] at e1
              rw [e2]
              exact e1.symm
            · exact fun c hc => List.mem_takeWhile_imp hc
            · exact fun c hc => List.mem_takeWhile_imp hc
        · simp [parseUnsigned, h1, h2, hc] at h
  · rintro ⟨ds1, ds2, rest, rfl, h1, hd1, h2, hd2⟩
    have hdot : ('.' : Char).isDigit = false := by decide
    have ht : (ds1 ++ '.' :: (ds2 ++ rest)).takeWhile Char.isDigit = ds1 := by
      rw [takeWhile_append_all _ _ _ hd1]
      simp [List.takeWhile_cons, hdot]
    have hd : (ds1 ++ '.' :: (ds2 ++ rest)).dropWhile Char.isDigit = '.' :: (ds2 ++ rest) := by
      rw [dropWhile_append_all _ _ _ hd1]
      simp [List.dropWhile_cons, hdot]
    have hds2 : (ds2 ++ rest).takeWhile Char.isDigit = ds2 ++ rest.takeWhile Char.isDigit :=
      takeWhile_append_all _ _ _ hd2
    simp [parseUnsigned, ht, hd, h1, hds2, h2]

theorem parseSignedDecimal_isSome_iff (cs : List Char) :
    (parseSignedDecimal cs).isSome = true ↔
      ∃ sgn ds1 ds2 rest : List Char,
        cs = sgn ++ ds1 ++ '.' :: (ds2 ++ rest) ∧
        (sgn = [] ∨ sgn = ['+'] ∨ sgn = ['-']) ∧
        ds1 ≠ [] ∧ (∀ c ∈ ds1, c.isDigit = true) ∧
        ds2 ≠ [] ∧ (∀ c ∈ ds2, c.isDigit = true) := by
  constructor
  · intro h
    cases cs with
    | nil => simp [parseSignedDecimal] at h
    | cons c t =>
      by_cases hp : c = '+'
      · subst hp
        simp [parseSignedDecimal] at h
        obtain ⟨ds1, ds2, rest, he, h1, hd1, h2, hd2⟩ := (parseUnsigned_isSome_iff t).mp h
        exact ⟨['+'], ds1, ds2, rest, by simp [he], Or.inr (Or.inl rfl), h1, hd1, h2, hd2⟩
      · by_cases hm : c = '-'
        · subst hm
          simp [parseSignedDecimal, hp, Option.isSome_map] at h
          obtain ⟨ds1, ds2, rest, he, h1, hd1, h2, hd2⟩ := (parseUnsigned_isSome_iff t).mp h
          exact ⟨['-'], ds1, ds2, rest, by simp [he], Or.inr (Or.inr rfl), h1, hd1, h2, hd2⟩
        · simp [parseSignedDecimal, hp, hm] at h
          obtain ⟨ds1, ds2, rest, he, h1, hd1, h2, hd2⟩ :=
            (parseUnsigned_isSome_iff (c :: t)).mp h
          exact ⟨[], ds1, ds2, rest, by simp [he], Or.inl rfl, h1, hd1, h2, hd2⟩
  · rintro ⟨sgn, ds1, ds2, rest, rfl, hs, h1, hd1, h2, hd2⟩
    have hbody : (parseUnsigned (ds1 ++ '.' :: (ds2 ++ rest))).isSome = true :=
      (parseUnsigned_isSome_iff _).mpr ⟨ds1, ds2, rest, rfl, h1, hd1, h2, hd2⟩
    rcases hs with rfl | rfl | rfl
    · cases ds1 with
      | nil => exact absurd rfl h1
      | cons d t =>
        have hd : d.isDigit = true := hd1 d (by simp)
        have hdp : d ≠ '+' := by rintro rfl; exact absurd hd (by decide)
        have hdm : d ≠ '-' := by rintro rfl; exact absurd hd (by decide)
        simpa [parseSignedDecimal, hdp, hdm] using hbody
    · simpa [parseSignedDecimal] using hbody
    · simpa [parseSignedDecimal, Option.isSome_map] using hbody

theorem isPySpace_eq_false_of_isDigit {c : Char} (h : c.isDigit = true) :
    isPySpace c = false := by
  cases hc : isPySpace c
  · rfl
  · exfalso
    simp only [isPySpace, Bool.or_eq_true, beq_iff_eq] at hc
    rcases hc with (((((((((((rfl | rfl) | rfl) | rfl) | rfl) | rfl) | rfl) | rfl) | rfl) | rfl) | rfl) | rfl) <;>
      exact absurd h (by decide)

theorem matchAt_isSome_iff (cmd cs : List Char) :
    (matchAt cmd cs).isSome = true ↔ SpacedLiteral cmd cs := by
  constructor
  · intro h
    unfold matchAt at h
    cases hdt : dropToken cmd cs with
    | none => rw [hdt] at h; simp at h
    | some rest =>
      rw [hdt] at h
      have hcs : cs = cmd ++ rest := (dropToken_eq_some_iff _ _ _).mp hdt
      obtain ⟨sgn, ds1, ds2, rest2, he, hs, h1, hd1, h2, hd2⟩ :=
        (parseSignedDecimal_isSome_iff _).mp h
      refine ⟨rest.takeWhile isPySpace, sgn, ds1, ds2, rest2, ?_,
        fun c hc => List.mem_takeWhile_imp hc, hs, h1, hd1, h2, hd2⟩
      have e1 := List.takeWhile_append_dropWhile (p := isPySpace) (l := rest)
      rw [he] at e1
      rw [hcs]
      conv_lhs => rw [← e1]
      simp [List.append_assoc]
  · rintro ⟨ws, sgn, ds1, ds2, rest, rfl, hws, hs, h1, hd1, h2, hd2⟩
    have hdt : dropToken cmd (cmd ++ ws ++ sgn ++ ds1 ++ '.' :: (ds2 ++ rest)) =
        some (ws ++ (sgn ++ (ds1 ++ '.' :: (ds2 ++ rest)))) :=
      (dropToken_eq_some_iff _ _ _).mpr (by simp [List.append_assoc])
    have hdw : (ws ++ (sgn ++ (ds1 ++ '.' :: (ds2 ++ rest)))).dropWhile isPySpace =
        sgn ++ (ds1 ++ '.' :: (ds2 ++ rest)) := by
      rw [dropWhile_append_all _ _ _ hws]
      rcases hs with rfl | rfl | rfl
      · cases ds1 with
        | nil => exact absurd rfl h1
        | cons d t =>
          have hd : isPySpace d = false := isPySpace_eq_false_of_isDigit (hd1 d (by simp))
          simp [List.dropWhile_cons, hd]
      · have hplus : isPySpace '+' = false := by decide
        simp [List.dropWhile_cons, hplus]
      · have hminus : isPySpace '-' = false := by decide
        simp [List.dropWhile_cons, hminus]
    have hsome : (parseSignedDecimal (sgn ++ (ds1 ++ '.' :: (ds2 ++ rest)))).isSome = true :=
      (parseSignedDecimal_isSome_iff _).mpr
        ⟨sgn, ds1, ds2, rest, by simp [List.append_assoc], hs, h1, hd1, h2, hd2⟩
    simp only [matchAt, hdt]
    rw [hdw]
    exact hsome

theorem reSearch_eq_none_iff (cmd cs : List Char) :
    reSearch cmd cs = none ↔ ∀ i, matchAt cmd (cs.drop i) = none := by
  induction cs with
  | nil =>
    constructor
    · intro h i
      simpa [List.drop_nil, reSearch] using h
    · intro h
      simpa [reSearch] using h 0
  | cons c t ih =>
    cases hm : matchAt cmd (c :: t) with
    | some v =>
      simp only [reSearch, hm]
      constructor
      · intro h; exact absurd h (by simp)
      · intro h
        have := h 0
        simp [hm] at this
    | none =>
      simp only [reSearch, hm]
      rw [ih]
      constructor
      · intro h i
        cases i with
        | zero => simpa using hm
        | succ n => simpa using h n
      · intro h n
        simpa using h (n + 1)

theorem extract_eq_none_iff (frame : String) (p : Parameter) :
    extract_parameter_value frame p = none ↔
      reSearch p.command.toList frame.toList = none := by
  unfold extract_parameter_value
  cases h : reSearch p.command.toList frame.toList with
  | none => simp
  | some v => by_cases hc : p.command = "DR" <;> simp [hc]

/-! ## Helper lemmas: threshold evaluation and the parameter loop -/

theorem low_mem_checkOne_iff (dn pn : String) (v l : ℚ) (t : Threshold) :
    Warning.low dn pn v l ∈ checkOneThreshold dn pn v t ↔
      t.low_value = some l ∧ v < l := by
  rcases t with ⟨id, lv, hv, en, tpid, did⟩
  cases lv <;> cases hv <;> simp [checkOneThreshold, eq_comm, and_comm] <;>
    (rintro rfl; rfl)

theorem high_mem_checkOne_iff (dn pn : String) (v h : ℚ) (t : Threshold) :
    Warning.high dn pn v h ∈ checkOneThreshold dn pn v t ↔
      t.high_value = some h ∧ h < v := by
  rcases t with ⟨id, lv, hv, en, tpid, did⟩
  cases lv <;> cases hv <;> simp [checkOneThreshold, eq_comm, and_comm] <;>
    (rintro rfl; rfl)

theorem low_mem_checkList_iff (dn pn : String) (pid : Nat) (v l : ℚ) (ts : List Threshold) :
    Warning.low dn pn v l ∈ checkThresholdList dn pn pid v ts ↔
      v < l ∧ ∃ t ∈ ts, t.parameter_id = pid ∧ t.is_enable = true ∧ t.low_value = some l := by
  induction ts with
  | nil => simp [checkThresholdList]
  | cons t ts ih =>
    simp only [checkThresholdList, List.mem_append]
    by_cases hm : t.parameter_id = pid ∧ t.is_enable = true
    · rw [if_pos hm]
      simp only [low_mem_checkOne_iff, ih, List.mem_cons]
      constructor
      · rintro (⟨hl, hv⟩ | ⟨hv, t', ht', h1, h2, h3⟩)
        · exact ⟨hv, t, Or.inl rfl, hm.1, hm.2, hl⟩
        · exact ⟨hv, t', Or.inr ht', h1, h2, h3⟩
      · rintro ⟨hv, t', (rfl | ht'), h1, h2, h3⟩
        · exact Or.inl ⟨h3, hv⟩
        · exact Or.inr ⟨hv, t', ht', h1, h2, h3⟩
    · rw [if_neg hm]
      simp only [List.not_mem_nil, false_or, ih, List.mem_cons]
      constructor
      · rintro ⟨hv, t', ht', h1, h2, h3⟩
        exact ⟨hv, t', Or.inr ht', h1, h2, h3⟩
      · rintro ⟨hv, t', (rfl | ht'), h1, h2, h3⟩
        · exact absurd ⟨h1, h2⟩ hm
        · exact ⟨hv, t', ht', h1, h2, h3⟩



theorem high_mem_checkList_iff (dn pn : String) (pid : Nat) (v h : ℚ) (ts : List Threshold) :
    Warning.high dn pn v h ∈ checkThresholdList dn pn pid v ts ↔
      h < v ∧ ∃ t ∈ ts, t.parameter_id = pid ∧ t.is_enable = true ∧ t.high_value = some h := by
  induction ts with
  | nil => simp [checkThresholdList]
  | cons t ts ih =>
    simp only [checkThresholdList, List.mem_append]
    by_cases hm : t.parameter_id = pid ∧ t.is_enable = true
    · rw [if_pos hm]
      simp only [high_mem_checkOne_iff, ih, List.mem_cons]
      constructor
      · rintro (⟨hl, hv⟩ | ⟨hv, t', ht', h1, h2, h3⟩)
        · exact ⟨hv, t, Or.inl rfl, hm.1, hm.2, hl⟩
        · exact ⟨hv, t', Or.inr ht', h1, h2, h3⟩
      · rintro ⟨hv, t', (rfl | ht'), h1, h2, h3⟩
        · exact Or.inl ⟨h3, hv⟩
        · exact Or.inr ⟨hv, t', ht', h1, h2, h3⟩
    · rw [if_neg hm]
      simp only [List.not_mem_nil, false_or, ih, List.mem_cons]
      constructor
      · rintro ⟨hv, t', ht', h1, h2, h3⟩
        exact ⟨hv, t', Or.inr ht', h1, h2, h3⟩
      · rintro ⟨hv, t', (rfl | ht'), h1, h2, h3⟩
        · exact absurd ⟨h1, h2⟩ hm
        · exact ⟨hv, t', ht', h1, h2, h3⟩

theorem countP_low_checkOne (dn pn : String) (v : ℚ) (t : Threshold) :
    (checkOneThreshold dn pn v t).countP isLowWarning = (lowFires v t).toNat := by
  rcases t with ⟨id, lv, hv, en, tpid, did⟩
  cases lv with
  | none =>
    cases hv with
    | none => simp [checkOneThreshold, lowFires]
    | some hb =>
      by_cases hvb : v > hb <;>
        simp [checkOneThreshold, lowFires, hvb, isLowWarning, List.countP_cons]
  | some l =>
    cases hv with
    | none =>
      by_cases hvl : v < l <;>
        simp [checkOneThreshold, lowFires, hvl, isLowWarning, List.countP_cons]
    | some hb =>
      by_cases hvl : v < l <;> by_cases hvb : v > hb <;>
        simp [checkOneThreshold, lowFires, hvl, hvb, isLowWarning, isHighWarning,
          List.countP_cons, List.countP_append]

theorem countP_high_checkOne (dn pn : String) (v : ℚ) (t : Threshold) :
    (checkOneThreshold dn pn v t).countP isHighWarning = (highFires v t).toNat := by
  rcases t with ⟨id, lv, hv, en, tpid, did⟩
  cases lv with
  | none =>
    cases hv with
    | none => simp [checkOneThreshold, highFires]
    | some hb =>
      by_cases hvb : v > hb <;>
        simp [checkOneThreshold, highFires, hvb, isHighWarning, List.countP_cons]
  | some l =>
    cases hv with
    | none =>
      by_cases hvl : v < l <;>
        simp [checkOneThreshold, highFires, hvl, isLowWarning, isHighWarning, List.countP_cons]
    | some hb =>
      by_cases hvl : v < l <;> by_cases hvb : v > hb <;>
        simp [checkOneThreshold, highFires, hvl, hvb, isLowWarning, isHighWarning,
          List.countP_cons, List.countP_append]

theorem countP_low_checkList (dn pn : String) (pid : Nat) (v : ℚ) (ts : List Threshold) :
    (checkThresholdList dn pn pid v ts).countP isLowWarning =
      ts.countP (lowTriggered pid v) := by
  induction ts with
  | nil => simp [checkThresholdList]
  | cons t ts ih =>
    simp only [checkThresholdList, List.countP_append, List.countP_cons, ih]
    rw [Nat.add_comm]
    congr 1
    by_cases hm : t.parameter_id = pid ∧ t.is_enable = true
    · rw [if_pos hm, countP_low_checkOne]
      have : lowTriggered pid v t = lowFires v t := by
        simp [lowTriggered, hm.1, hm.2]
      rw [this]
      cases lowFires v t <;> simp
    · rw [if_neg hm]
      have : lowTriggered pid v t = false := by
        rcases not_and_or.mp hm with hc | hc
        · simp [lowTriggered, hc]
        · simp only [Bool.not_eq_true] at hc
          simp [lowTriggered, hc]
      simp [this]

theorem countP_high_checkList (dn pn : String) (pid : Nat) (v : ℚ) (ts : List Threshold) :
    (checkThresholdList dn pn pid v ts).countP isHighWarning =
      ts.countP (highTriggered pid v) := by
  induction ts with
  | nil => simp [checkThresholdList]
  | cons t ts ih =>
    simp only [checkThresholdList, List.countP_append, List.countP_cons, ih]
    rw [Nat.add_comm]
    congr 1
    by_cases hm : t.parameter_id = pid ∧ t.is_enable = true
    · rw [if_pos hm, countP_high_checkOne]
      have : highTriggered pid v t = highFires v t := by
        simp [highTriggered, hm.1, hm.2]
      rw [this]
      cases highFires v t <;> simp
    · rw [if_neg hm]
      have : highTriggered pid v t = false := by
        rcases not_and_or.mp hm with hc | hc
        · simp [highTriggered, hc]
        · simp only [Bool.not_eq_true] at hc
          simp [highTriggered, hc]
      simp [this]



theorem processParams_mem (device : Device) (frame : String) (ps : List Parameter)
    (p : Parameter) (v : ℚ) (hp : p ∈ ps)
    (hv : extract_parameter_value frame p = some v) :
    (⟨p.name, p.command, formattedValue p v, p.metric.getD ""⟩ : ParamData) ∈
        (processParams device frame ps).parameters_data ∧
      (p.id, v) ∈ (processParams device frame ps).threshold_calls := by
  induction ps with
  | nil => simp at hp
  | cons q qs ih =>
    rcases List.mem_cons.mp hp with rfl | hmem
    · simp only [processParams, hv]
      exact ⟨List.mem_cons_self _ _, List.mem_cons_self _ _⟩
    · have hrec := ih hmem
      simp only [processParams]
      cases hq : extract_parameter_value frame q with
      | none => simpa [hq] using hrec
      | some w =>
        exact ⟨List.mem_cons_of_mem _ hrec.1, List.mem_cons_of_mem _ hrec.2⟩

theorem poll_device_frame_eq (paramRepo : Nat → List Parameter) (device : Device)
    (raw : String) :
    poll_device paramRepo device (ConnBehavior.frame raw) =
      ⟨true, [],
        some ⟨device.name, device.ip_address, device.port,
          (processParams device (String.mk (pyStrip raw.toList))
            (get_device_parameters paramRepo device)).parameters_data⟩,
        (processParams device (String.mk (pyStrip raw.toList))
          (get_device_parameters paramRepo device)).threshold_calls,
        (processParams device (String.mk (pyStrip raw.toList))
          (get_device_parameters paramRepo device)).warnings⟩ := rfl

theorem poll_all_mem_enabled (devices : List Device) (paramRepo : Nat → List Parameter)
    (behaviorOf : Device → ConnBehavior) :
    ∀ x ∈ poll_all_devices devices paramRepo behaviorOf, x.1.is_enable = true := by
  intro x hx
  rcases List.mem_map.mp hx with ⟨d, hd, rfl⟩
  exact (List.mem_filter.mp hd).2

/-! ## Claim theorems -/

/-- Claim C1, counterexample (corrected): the engine keeps no value cache at
all.  In two consecutive rounds the device sends the identical frame
`TE+21.5\r\n`, so the freshly decoded value 21.5 equals the previously
observed value for (Device-A, TE); the claim then requires the second round
to perform no threshold re-check and to emit no duplicate reading.  Yet the
second round performs exactly the same threshold call `(parameter 1, 21.5)`
as the first, emits the above-maximum warning again, and records the
duplicate reading in the saved device data. -/
theorem C1_suppression_counterexample :
    (runTwoRounds exampleRepo exampleDevice (ConnBehavior.frame "TE+21.5\r\n")
        (ConnBehavior.frame "TE+21.5\r\n")).1.threshold_calls =
      (runTwoRounds exampleRepo exampleDevice (ConnBehavior.frame "TE+21.5\r\n")
        (ConnBehavior.frame "TE+21.5\r\n")).2.threshold_calls ∧
    (runTwoRounds exampleRepo exampleDevice (ConnBehavior.frame "TE+21.5\r\n")
        (ConnBehavior.frame "TE+21.5\r\n")).2.threshold_calls = [(1, (43 : ℚ) / 2)] ∧
    (runTwoRounds exampleRepo exampleDevice (ConnBehavior.frame "TE+21.5\r\n")
        (ConnBehavior.frame "TE+21.5\r\n")).2.saved =
      some ⟨"Device-A", "10.0.0.5", 9000, [⟨"TE", "TE", (43 : ℚ) / 2, "C"⟩]⟩ ∧
    (runTwoRounds exampleRepo exampleDevice (ConnBehavior.frame "TE+21.5\r\n")
        (ConnBehavior.frame "TE+21.5\r\n")).2.warnings =
      [Warning.high "Device-A" "TE" ((43 : ℚ) / 2) 20] := by
  refine ⟨rfl, ?_, ?_, ?_⟩ <;>
    (simp [runTwoRounds, poll_device, open_connection, read_frame, processParams,
      get_device_parameters, exampleRepo, exampleDevice, exampleParameter, exampleThreshold,
      pyStrip, isPySpace, extract_parameter_value, reSearch, matchAt, dropToken,
      parseSignedDecimal, parseUnsigned, digitsVal, formattedValue, check_thresholds,
      checkThresholdList, checkOneThreshold]
     norm_num)

/-- Claim C1, amended (corrected): there is no duplicate suppression.  In
every round whose frame yields a successfully extracted value for a
parameter, `poll_device` performs a threshold check with that value and
emits the reading — regardless of what any earlier round produced, and in
particular also when two consecutive rounds produce the identical value
(instantiate `raw1 = raw2`). -/
theorem C1_threshold_checked_every_round (paramRepo : Nat → List Parameter) (device : Device)
    (raw1 raw2 : String) (p : Parameter) (v1 v2 : ℚ)
    (hp : p ∈ get_device_parameters paramRepo device)
    (h1 : extract_parameter_value (String.mk (pyStrip raw1.toList)) p = some v1)
    (h2 : extract_parameter_value (String.mk (pyStrip raw2.toList)) p = some v2) :
    (p.id, v1) ∈ (runTwoRounds paramRepo device (ConnBehavior.frame raw1)
        (ConnBehavior.frame raw2)).1.threshold_calls ∧
    (p.id, v2) ∈ (runTwoRounds paramRepo device (ConnBehavior.frame raw1)
        (ConnBehavior.frame raw2)).2.threshold_calls ∧
    ∃ sd : SavedDeviceData,
      (runTwoRounds paramRepo device (ConnBehavior.frame raw1)
        (ConnBehavior.frame raw2)).2.saved = some sd ∧
      (⟨p.name, p.command, formattedValue p v2, p.metric.getD ""⟩ : ParamData) ∈
        sd.parameters := by
  have r1 := processParams_mem device (String.mk (pyStrip raw1.toList))
    (get_device_parameters paramRepo device) p v1 hp h1
  have r2 := processParams_mem device (String.mk (pyStrip raw2.toList))
    (get_device_parameters paramRepo device) p v2 hp h2
  refine ⟨?_, ?_,
    ⟨⟨device.name, device.ip_address, device.port,
      (processParams device (String.mk (pyStrip raw2.toList))
        (get_device_parameters paramRepo device)).parameters_data⟩, ?_, ?_⟩⟩
  · simpa [runTwoRounds, poll_device_frame_eq] using r1.2
  · simpa [runTwoRounds, poll_device_frame_eq] using r2.2
  · simp [runTwoRounds, poll_device_frame_eq]
  · simpa using r2.1

/-- Claim C1 witness: two identical rounds with frame `TE+21.5\r\n` for the
example device; both rounds make the threshold call and the second round
still records the reading. -/
theorem C1_threshold_checked_every_round_witness :
    (1, (43 : ℚ) / 2) ∈ (runTwoRounds exampleRepo exampleDevice
        (ConnBehavior.frame "TE+21.5\r\n") (ConnBehavior.frame "TE+21.5\r\n")).1.threshold_calls ∧
    (1, (43 : ℚ) / 2) ∈ (runTwoRounds exampleRepo exampleDevice
        (ConnBehavior.frame "TE+21.5\r\n") (ConnBehavior.frame "TE+21.5\r\n")).2.threshold_calls ∧
    ∃ sd : SavedDeviceData,
      (runTwoRounds exampleRepo exampleDevice (ConnBehavior.frame "TE+21.5\r\n")
        (ConnBehavior.frame "TE+21.5\r\n")).2.saved = some sd ∧
      (⟨exampleParameter.name, exampleParameter.command,
        formattedValue exampleParameter ((43 : ℚ) / 2),
        exampleParameter.metric.getD ""⟩ : ParamData) ∈ sd.parameters := by
  have h := C1_threshold_checked_every_round exampleRepo exampleDevice
    "TE+21.5\r\n" "TE+21.5\r\n" exampleParameter ((43 : ℚ) / 2) ((43 : ℚ) / 2)
    (by simp [get_device_parameters, exampleDevice, exampleRepo])
    (by simp [extract_parameter_value, reSearch, matchAt, dropToken, parseSignedDecimal,
        parseUnsigned, digitsVal, isPySpace, pyStrip, exampleParameter]
        norm_num)
    (by simp [extract_parameter_value, reSearch, matchAt, dropToken, parseSignedDecimal,
        parseUnsigned, digitsVal, isPySpace, pyStrip, exampleParameter]
        norm_num)
  simpa [exampleParameter] using h

/-- Claim C2 (confirmed): `check_thresholds` evaluates every enabled rule on
the (device, parameter) pair independently.  A below-minimum warning with
payload (device name, parameter name, value, bound) is emitted exactly when
some enabled matching rule has `low_value = some l` with `value < l`,
symmetrically for above-maximum; the number of low (resp. high) warnings
equals the number of enabled matching rules whose low (resp. high) bound
fires, and an absent bound simply skips that side (it never fires).  For
the rule low=10, high=20 and value 25, exactly one above-maximum warning
and zero below-minimum warnings are emitted. -/
theorem C2_check_thresholds_contract (device : Device) (p : Parameter) (v : ℚ) :
    (∀ l : ℚ, Warning.low device.name p.name v l ∈ check_thresholds device p v ↔
        v < l ∧ ∃ t ∈ device.thresholds,
          t.parameter_id = p.id ∧ t.is_enable = true ∧ t.low_value = some l) ∧
    (∀ hb : ℚ, Warning.high device.name p.name v hb ∈ check_thresholds device p v ↔
        hb < v ∧ ∃ t ∈ device.thresholds,
          t.parameter_id = p.id ∧ t.is_enable = true ∧ t.high_value = some hb) ∧
    ((check_thresholds device p v).countP isLowWarning =
      device.thresholds.countP (lowTriggered p.id v)) ∧
    ((check_thresholds device p v).countP isHighWarning =
      device.thresholds.countP (highTriggered p.id v)) ∧
    check_thresholds exampleDevice exampleParameter 25 =
      [Warning.high "Device-A" "TE" 25 20] := by
  refine ⟨fun l => low_mem_checkList_iff _ _ _ _ _ _,
    fun hb => high_mem_checkList_iff _ _ _ _ _ _,
    countP_low_checkList _ _ _ _ _,
    countP_high_checkList _ _ _ _ _, ?_⟩
  norm_num [check_thresholds, checkThresholdList, checkOneThreshold, exampleDevice,
    exampleParameter, exampleThreshold]

/-- Claim C2 witness: the low=10/high=20/value=25 instance, by the theorem. -/
theorem C2_check_thresholds_witness :
    check_thresholds exampleDevice exampleParameter 25 =
      [Warning.high "Device-A" "TE" 25 20] :=
  (C2_check_thresholds_contract exampleDevice exampleParameter 25).2.2.2.2

/-- Claim C3 (confirmed): extraction returns "absent" exactly when no
position of the frame carries the parameter's command token followed by
optional whitespace and a signed decimal literal `[+-]?digits.digits`
(the declarative `SpacedLiteral` spec); equivalently, extraction succeeds
exactly when such a token-anchored literal occurs somewhere in the frame. -/
theorem C3_extract_absent_iff (frame : String) (p : Parameter) :
    extract_parameter_value frame p = none ↔
      ∀ i, ¬ SpacedLiteral p.command.toList (frame.toList.drop i) := by
  rw [extract_eq_none_iff, reSearch_eq_none_iff]
  refine forall_congr' (fun i => ?_)
  rw [← matchAt_isSome_iff]
  cases h : matchAt p.command.toList (frame.toList.drop i) <;> simp [h]

/-- Claim C3 witness: frame `XY+1.2` does not contain the `TE` token, so by
the theorem no position carries a `TE`-anchored literal. -/
theorem C3_extract_absent_witness :
    ¬ SpacedLiteral exampleParameter.command.toList (("XY+1.2" : String).toList.drop 0) :=
  (C3_extract_absent_iff "XY+1.2" exampleParameter).mp (by
    simp [extract_parameter_value, reSearch, matchAt, dropToken, parseSignedDecimal,
      parseUnsigned, digitsVal, isPySpace, exampleParameter]) 0

/-- Claim C4 (confirmed): when the search finds a literal of value `w`, a
`DR` (divide-by-ten) parameter yields `w / 10` and every other parameter
yields `w` unchanged; in particular a frame containing `DR123.4` extracts
to 12.34 (= 617/50), while `TE123.4` extracts to 123.4 unchanged. -/
theorem C4_dr_scale_transform (frame : String) (p : Parameter) (w : ℚ)
    (hw : reSearch p.command.toList frame.toList = some w) :
    extract_parameter_value frame p = some (if p.command = "DR" then w / 10 else w) ∧
    extract_parameter_value "xxDR123.4yy" drParameter = some ((617 : ℚ) / 50) ∧
    extract_parameter_value "TE123.4" exampleParameter = some ((617 : ℚ) / 5) := by
  refine ⟨?_, ?_, ?_⟩
  · rw [extract_parameter_value, hw]
    by_cases hc : p.command = "DR" <;> simp [hc]
  · simp [extract_parameter_value, reSearch, matchAt, dropToken, parseSignedDecimal,
      parseUnsigned, digitsVal, isPySpace, drParameter]
    norm_num
  · simp [extract_parameter_value, reSearch, matchAt, dropToken, parseSignedDecimal,
      parseUnsigned, digitsVal, isPySpace, exampleParameter]
    norm_num

/-- Claim C4 witness: the `DR123.4` instance, with the search hypothesis
discharged by evaluation (the matched literal is 123.4 = 617/5). -/
theorem C4_dr_scale_witness :
    extract_parameter_value "xxDR123.4yy" drParameter = some ((617 : ℚ) / 50) :=
  (C4_dr_scale_transform "xxDR123.4yy" drParameter ((617 : ℚ) / 5) (by
    simp [reSearch, matchAt, dropToken, parseSignedDecimal, parseUnsigned, digitsVal,
      isPySpace, drParameter]
    norm_num)).2.1

/-- Claim C5 (confirmed): a failed poll attempt (connection error or read
timeout) is caught inside `poll_device`, which returns normally with
exactly one error/warning log record naming the device — the engine's
best-effort failure notification — no saved reading set and no threshold
calls; and `poll_all_devices` still produces one result per enabled device
whatever each device's behaviour is, so one device's failure never aborts
the round. -/
theorem C5_failures_isolated (paramRepo : Nat → List Parameter) (device : Device) :
    poll_device paramRepo device ConnBehavior.connectFail =
      ⟨false, [LogEvent.connectError device.name], none, [], []⟩ ∧
    poll_device paramRepo device ConnBehavior.readTimeout =
      ⟨true, [LogEvent.readTimeoutWarn device.name], none, [], []⟩ ∧
    ∀ (devices : List Device) (behaviorOf : Device → ConnBehavior),
      (poll_all_devices devices paramRepo behaviorOf).length =
        (get_devices_by_is_enable_true devices).length ∧
      ∀ d ∈ get_devices_by_is_enable_true devices,
        (d, poll_device paramRepo d (behaviorOf d)) ∈
          poll_all_devices devices paramRepo behaviorOf := by
  refine ⟨rfl, rfl, fun devices behaviorOf => ⟨by simp [poll_all_devices], ?_⟩⟩
  intro d hd
  exact List.mem_map.mpr ⟨d, hd, rfl⟩

/-- Claim C5 witness: the connection-failure case for the example device. -/
theorem C5_failures_isolated_witness :
    poll_device exampleRepo exampleDevice ConnBehavior.connectFail =
      ⟨false, [LogEvent.connectError exampleDevice.name], none, [], []⟩ :=
  (C5_failures_isolated exampleRepo exampleDevice).1

/-- Claim C6, counterexample (corrected): the scheduler emits no "disabled"
notification at all.  For a round whose device list contains only the
disabled Device-C, the claim requires a single disabled notification for
it, but the entire round output is empty — zero notifications of any kind
concern Device-C. -/
theorem C6_no_disabled_notification_counterexample :
    disabledDevice.is_enable = false ∧
    poll_all_devices [disabledDevice] exampleRepo (fun _ => ConnBehavior.connectFail) = [] :=
  ⟨rfl, rfl⟩

/-- Claim C6, amended (corrected): a device whose enabled flag is false is
never polled — `get_devices_by_is_enable_true` filters it out, so no
connection is opened to it and the round contains no result (hence no
notification of any kind, in particular no "disabled" one) for it; every
result of a round concerns an enabled device. -/
theorem C6_disabled_never_polled (devices : List Device)
    (paramRepo : Nat → List Parameter) (behaviorOf : Device → ConnBehavior) :
    (∀ x ∈ poll_all_devices devices paramRepo behaviorOf, x.1.is_enable = true) ∧
    ∀ d : Device, d.is_enable = false →
      ∀ r : PollResult, (d, r) ∉ poll_all_devices devices paramRepo behaviorOf := by
  refine ⟨poll_all_mem_enabled devices paramRepo behaviorOf, ?_⟩
  intro d hdis r hmem
  have hen := poll_all_mem_enabled devices paramRepo behaviorOf (d, r) hmem
  rw [hdis] at hen
  exact Bool.false_ne_true hen

/-- Claim C6 witness: the disabled Device-C produces no result in a
one-device round. -/
theorem C6_disabled_witness :
    (disabledDevice, poll_device exampleRepo disabledDevice ConnBehavior.connectFail) ∉
      poll_all_devices [disabledDevice] exampleRepo (fun _ => ConnBehavior.connectFail) :=
  (C6_disabled_never_polled [disabledDevice] exampleRepo
    (fun _ => ConnBehavior.connectFail)).2 disabledDevice rfl _

/-- Claim C7 (confirmed): once the run loop has created the polling event,
the interval setter rejects every non-positive value with `ValueError`
(leaving the state unchanged), and for every positive value it stores the
new interval, raises nothing, sets the polling event (which interrupts an
in-progress inter-round sleep), and the next computed sleep uses the new
interval: `max(0, new_interval - elapsed)`. -/
theorem C7_set_interval_contract (s : SchedulerState) (v : ℤ) (elapsed : ℚ)
    (hrun : s.eventCreated = true) :
    (v ≤ 0 → set_polling_interval s v = (s, some PyError.valueError)) ∧
    (0 < v →
      (set_polling_interval s v).2 = none ∧
      (set_polling_interval s v).1.polling_interval = v ∧
      (set_polling_interval s v).1.eventSet = true ∧
      compute_sleep_time (set_polling_interval s v).1.polling_interval elapsed =
        max 0 ((v : ℚ) - elapsed)) := by
  constructor
  · intro hv
    simp [set_polling_interval, hv]
  · intro hv
    have hnle : ¬ v ≤ 0 := not_le.mpr hv
    simp [set_polling_interval, hnle, hrun, compute_sleep_time]

/-- Claim C7 witness: a running service (interval 15) set to 5 with 2
seconds elapsed sleeps `max(0, 5 - 2)` next. -/
theorem C7_set_interval_witness :
    (set_polling_interval (run_init (initService 15)) 5).2 = none ∧
    (set_polling_interval (run_init (initService 15)) 5).1.polling_interval = 5 ∧
    (set_polling_interval (run_init (initService 15)) 5).1.eventSet = true ∧
    compute_sleep_time (set_polling_interval (run_init (initService 15)) 5).1.polling_interval 2 =
      max 0 ((5 : ℚ) - 2) :=
  (C7_set_interval_contract (run_init (initService 15)) 5 2 rfl).2 (by norm_num)

/-- Claim C8 (confirmed): in the saved device data the recorded value of a
`DR` parameter is the (already divided) extracted value rounded to one
decimal place, while `check_thresholds` is called with the unrounded value;
for every non-`DR` parameter the recorded and the checked value are the
identical extracted value (the `if` in the recorded entry collapses to
`v`). -/
theorem C8_dr_recorded_rounded_checked_unrounded (paramRepo : Nat → List Parameter)
    (device : Device) (raw : String) (p : Parameter) (v : ℚ)
    (hp : p ∈ get_device_parameters paramRepo device)
    (hv : extract_parameter_value (String.mk (pyStrip raw.toList)) p = some v) :
    ∃ sd : SavedDeviceData,
      (poll_device paramRepo device (ConnBehavior.frame raw)).saved = some sd ∧
      (⟨p.name, p.command, if p.command = "DR" then formatOneDecimal v else v,
        p.metric.getD ""⟩ : ParamData) ∈ sd.parameters ∧
      (p.id, v) ∈ (poll_device paramRepo device (ConnBehavior.frame raw)).threshold_calls := by
  have r := processParams_mem device (String.mk (pyStrip raw.toList))
    (get_device_parameters paramRepo device) p v hp hv
  refine ⟨⟨device.name, device.ip_address, device.port,
    (processParams device (String.mk (pyStrip raw.toList))
      (get_device_parameters paramRepo device)).parameters_data⟩, ?_, ?_, ?_⟩
  · simp [poll_device_frame_eq]
  · simpa [formattedValue] using r.1
  · simpa [poll_device_frame_eq] using r.2

/-- Claim C8 witness: frame `DR123.4\r\n` for the DR device; the reading is
recorded with `formatOneDecimal (617/50)` (i.e. 12.3) while the threshold
call carries 617/50 (i.e. 12.34). -/
theorem C8_dr_witness :
    ∃ sd : SavedDeviceData,
      (poll_device drRepo drDevice (ConnBehavior.frame "DR123.4\r\n")).saved = some sd ∧
      (⟨drParameter.name, drParameter.command,
        if drParameter.command = "DR" then formatOneDecimal ((617 : ℚ) / 50)
        else (617 : ℚ) / 50,
        drParameter.metric.getD ""⟩ : ParamData) ∈ sd.parameters ∧
      (drParameter.id, (617 : ℚ) / 50) ∈
        (poll_device drRepo drDevice (ConnBehavior.frame "DR123.4\r\n")).threshold_calls :=
  C8_dr_recorded_rounded_checked_unrounded drRepo drDevice "DR123.4\r\n" drParameter
    ((617 : ℚ) / 50)
    (by simp [get_device_parameters, drDevice, drRepo])
    (by simp [extract_parameter_value, reSearch, matchAt, dropToken, parseSignedDecimal,
        parseUnsigned, digitsVal, isPySpace, pyStrip, drParameter]
        norm_num)

/-- Claim C9 (confirmed): the divide-by-ten transform applies only to the
extracted reading — a `DR` parameter extracts to `w / 10` — while
`check_thresholds` compares that post-transform value against
`low_value` / `high_value` exactly as stored in each enabled matching rule
(the bound appears untransformed both in the comparison and in the emitted
warning).  Concretely, value 12.34 against the stored low bound 13 emits a
below-minimum warning carrying the bound 13 itself. -/
theorem C9_transform_value_not_bounds (device : Device) (p : Parameter) (frame : String)
    (w : ℚ) (hcmd : p.command = "DR")
    (hw : reSearch p.command.toList frame.toList = some w) :
    extract_parameter_value frame p = some (w / 10) ∧
    (∀ l : ℚ, Warning.low device.name p.name (w / 10) l ∈
        check_thresholds device p (w / 10) ↔
      w / 10 < l ∧ ∃ t ∈ device.thresholds,
        t.parameter_id = p.id ∧ t.is_enable = true ∧ t.low_value = some l) ∧
    (∀ hb : ℚ, Warning.high device.name p.name (w / 10) hb ∈
        check_thresholds device p (w / 10) ↔
      hb < w / 10 ∧ ∃ t ∈ device.thresholds,
        t.parameter_id = p.id ∧ t.is_enable = true ∧ t.high_value = some hb) ∧
    check_thresholds drDevice drParameter ((617 : ℚ) / 50) =
      [Warning.low "Device-R" "Rain" ((617 : ℚ) / 50) 13] := by
  refine ⟨?_, fun l => low_mem_checkList_iff _ _ _ _ _ _,
    fun hb => high_mem_checkList_iff _ _ _ _ _ _, ?_⟩
  · rw [extract_parameter_value, hw]
    simp [hcmd]
  · norm_num [check_thresholds, checkThresholdList, checkOneThreshold, drDevice,
      drParameter, drThreshold]

/-- Claim C9 witness: the DR parameter on frame `DR123.4` extracts to
`617/5 / 10`, by the theorem with its hypotheses evaluated. -/
theorem C9_transform_witness :
    extract_parameter_value "DR123.4" drParameter = some ((617 : ℚ) / 5 / 10) :=
  (C9_transform_value_not_bounds drDevice drParameter "DR123.4" ((617 : ℚ) / 5) rfl (by
    simp [reSearch, matchAt, dropToken, parseSignedDecimal, parseUnsigned, digitsVal,
      isPySpace, drParameter]
    norm_num)).1

/-- Claim C10 (confirmed): `__init__` does not create the polling event (it
is created only by `run`), so setting any positive interval before `run`
has ever started raises `AttributeError`; and because the setter assigns
`_polling_interval` before touching the event, the stored interval has
already been updated to the new value when the exception is raised — the
update is not atomic with the interrupt. -/
theorem C10_set_interval_before_run (i v : ℤ) (hv : 0 < v) :
    (initService i).eventCreated = false ∧
    (set_polling_interval (initService i) v).2 = some PyError.attributeError ∧
    (set_polling_interval (initService i) v).1.polling_interval = v ∧
    (run_init (initService i)).eventCreated = true := by
  refine ⟨rfl, ?_, ?_, rfl⟩ <;>
    simp [set_polling_interval, not_le.mpr hv, initService]

/-- Claim C10 witness: a fresh service with interval 15 set to 5 before
`run`: `AttributeError` is raised with the interval already updated. -/
theorem C10_set_interval_before_run_witness :
    (initService 15).eventCreated = false ∧
    (set_polling_interval (initService 15) 5).2 = some PyError.attributeError ∧
    (set_polling_interval (initService 15) 5).1.polling_interval = 5 ∧
    (run_init (initService 15)).eventCreated = true :=
  C10_set_interval_before_run 15 5 (by norm_num)

end ReinhardtMonitor
